import Mathlib

/-!
Shallow embedding of the session-coordination layer of `yt.py`
(a terminal YouTube audio player). Pure Python helpers become Lean
functions; UI/engine side effects become explicit `Effect` values
returned next to the updated state; background-worker completions are
modelled as functions applied to the captured arguments and the
worker's network outcome. Python floats are embedded as exact
rationals, Python `or`-defaulting (falsy = `None` or `0`) as `pyOr`,
and Python `int()` truncation as `pyInt`.
-/

namespace YT

/-- Python `x or d` on an optional number: `None` and `0` are falsy. -/
def pyOr (x : Option ℚ) (d : ℚ) : ℚ :=
  match x with
  | none => d
  | some v => if v = 0 then d else v

/-- Rational floor, computed on the numerator/denominator pair. -/
def ratFloor (q : ℚ) : Int := Int.fdiv q.num (q.den : Int)

/-- Python `int()` on a float/rational: truncation toward zero. -/
def pyInt (q : ℚ) : Int := if q < 0 then -(ratFloor (-q)) else ratFloor q

/-- Python `str()` of an optional string, `None` printing as `"None"`. -/
def pyStr (o : Option String) : String :=
  match o with
  | none => "None"
  | some s => s

/-- Side effects of the control layer: calls into the playback engine,
worker spawns, HTTP requests and user-visible notifications. -/
inductive Effect where
  | enginePlay (url : String)
  | enginePauseToggle
  | engineStop
  | engineSeek (seconds : Int)
  | notify (msg : String) (severity : String)
  | runSearchWorker (query : String)
  | runFetchWorker (videoId : String)
  | updateThumbnail (url : String)
  | selectCursor (idx : Nat)
  | playItem (videoId : String)
  | httpGet (url : String)
deriving DecidableEq, Repr

/-! ## AudioPlayer (the MPV wrapper) -/

/-- `AudioPlayer.get_time_pos`: `self.mpv.time_pos or 0`. -/
def get_time_pos (time_pos : Option ℚ) : ℚ := pyOr time_pos 0

/-- `AudioPlayer.get_duration`: `self.mpv.duration or 1` — note that a
reported duration of `0` (or a missing one) is already replaced by `1`
here, before `update_progress` ever sees it. -/
def get_duration (duration : Option ℚ) : ℚ := pyOr duration 1

/-- `AudioPlayer.pause`: flips the engine paused flag and returns the
new flag (the engine is the source of truth). -/
def AudioPlayer.pauseToggle (paused : Bool) : Bool × Bool :=
  let p := !paused
  (p, p)

/-- `AudioPlayer.change_volume`: reads the current engine volume
(`self.mpv.volume or 0`), adds `delta`, clamps to `[0, 150]`, writes the
result back and returns it.  First component: the volume written back to
the engine; second: the returned value. -/
def change_volume (volume : Option ℚ) (delta : Int) : ℚ × ℚ :=
  let current := pyOr volume 0
  let new_val := max 0 (min 150 (current + (delta : ℚ)))
  (new_val, new_val)

/-! ## Progress polling -/

/-- One attempted read of each engine property during a tick; a read
that raises is an `Except.error`.  (`core_idle` is read through
`getattr` with default `False`, so a missing attribute is already an
`ok false`; any other exception from the property read propagates.) -/
structure EngineReads where
  coreIdle : Except Unit Bool
  timePos : Except Unit (Option ℚ)
  duration : Except Unit (Option ℚ)

/-- Zero-padded two-digit rendering used by `_fmt_time`. -/
def pad2 (n : Nat) : String := if n < 10 then "0" ++ toString n else toString n

/-- `YTPlayerApp._fmt_time`: `H:MM:SS` with hours omitted when zero;
`None` or negative renders as `"00:00"`. -/
def fmt_time (seconds : Option ℚ) : String :=
  match seconds with
  | none => "00:00"
  | some q =>
    if q < 0 then "00:00"
    else
      let secs := (pyInt q).toNat
      let m0 := secs / 60
      let s := secs % 60
      let h := m0 / 60
      let m := m0 % 60
      if h ≠ 0 then toString h ++ ":" ++ pad2 m ++ ":" ++ pad2 s
      else pad2 m ++ ":" ++ pad2 s

/-- What one successful progress tick writes to the display. -/
structure Display where
  barTotal : ℚ
  barProgress : ℚ
  percent : Int
  percentLabel : String
  elapsedLabel : String
  remainingLabel : String
deriving DecidableEq, Repr

/-- `YTPlayerApp.update_progress`: the whole body runs inside
`try ... except Exception: pass`, so the function is total and a tick
either produces one display update (`some`) or none.  A failing engine
read, or `core_idle`, skips the update. -/
def update_progress (r : EngineReads) : Option Display :=
  match r.coreIdle with
  | Except.error _ => none
  | Except.ok true => none
  | Except.ok false =>
    match r.timePos with
    | Except.error _ => none
    | Except.ok tp =>
      match r.duration with
      | Except.error _ => none
      | Except.ok du =>
        let curr := get_time_pos tp
        let total0 := get_duration du
        let total := if total0 = 0 ∨ total0 ≤ 0 then max curr 1 else total0
        if 0 < total then
          let percent := pyInt (curr / total * 100)
          let remaining := max (total - curr) 0
          some { barTotal := total, barProgress := curr, percent := percent,
                 percentLabel := toString percent ++ "%",
                 elapsedLabel := fmt_time (some curr),
                 remainingLabel := "-" ++ fmt_time (some remaining) }
        else none

/-- Engine reads where every property read succeeds. -/
def readsAt (tp du : Option ℚ) : EngineReads :=
  { coreIdle := Except.ok false, timePos := Except.ok tp, duration := Except.ok du }

/-! ## Search results and the playback session -/

/-- `SearchResultItem`: the metadata stored on each list item. -/
structure ResultItem where
  title_text : String
  uploader : String
  video_id : String
  thumb_url : String
deriving DecidableEq, Repr

/-- The mutable app/session fields touched by playback control
(`current_video_id`/`current_title` reactives plus the labels). -/
structure Session where
  current_video_id : String
  current_title : String
  nowPlayingLabel : String
  stateLabel : String
  statusLine : String
  btnPlayPauseLabel : String
deriving DecidableEq, Repr

/-- The session fields as composed at app start. -/
def session0 : Session :=
  { current_video_id := ""
    current_title := "No Media Playing"
    nowPlayingLabel := "Not Playing"
    stateLabel := "Stopped"
    statusLine := ""
    btnPlayPauseLabel := "⏯" }

/-- A concrete search result used to exercise the stale-resolution race. -/
def itemA : ResultItem :=
  { title_text := "Song A", uploader := "Channel A", video_id := "vidA",
    thumb_url := "https://i.ytimg.com/vi/vidA/hqdefault.jpg" }

/-- A second concrete search result, selected while `itemA` is still resolving. -/
def itemB : ResultItem :=
  { title_text := "Song B", uploader := "Channel B", video_id := "vidB",
    thumb_url := "https://i.ytimg.com/vi/vidB/hqdefault.jpg" }

/-- `YTPlayerApp.play_video`: records the selected item as current,
updates the labels, kicks off the thumbnail update and spawns the
`fetch_and_play` worker for the item's id. -/
def play_video (s : Session) (item : ResultItem) : Session × List Effect :=
  ({ s with current_title := item.title_text,
            current_video_id := item.video_id,
            nowPlayingLabel := "[b]" ++ item.title_text ++ "[/b]",
            stateLabel := "Loading",
            statusLine := "" },
   [Effect.updateThumbnail item.thumb_url, Effect.runFetchWorker item.video_id])

/-- Completion of the `YTPlayerApp.fetch_and_play` worker spawned for
`videoId`: `res` is the outcome of the yt-dlp stream extraction (the
resolved direct-play URL, or the raised exception's message).  The body
never consults `videoId` or `current_video_id` — there is no staleness
guard — so a late result is applied unconditionally. -/
def fetch_and_play (s : Session) (videoId : String) (res : Except String String) :
    Session × List Effect :=
  match res with
  | Except.ok play_url =>
      ({ s with stateLabel := "Playing", statusLine := "" },
       [Effect.enginePlay play_url])
  | Except.error e =>
      ({ s with stateLabel := "Error", statusLine := e },
       [Effect.notify ("Error fetching stream: " ++ e) "error"])

/-- `YTPlayerApp.toggle_play_pause`: always calls `self.player.pause()`
(no guard on the session state), then sets the button and state labels
from the paused flag the engine reports.  Returns the new engine paused
flag, the updated session and the emitted engine call. -/
def toggle_play_pause (enginePaused : Bool) (ui : Session) :
    Bool × Session × List Effect :=
  let paused := (AudioPlayer.pauseToggle enginePaused).2
  ((AudioPlayer.pauseToggle enginePaused).1,
   { ui with btnPlayPauseLabel := if paused then "▶" else "⏸",
             stateLabel := if paused then "Paused" else "Playing" },
   [Effect.enginePauseToggle])

/-- `YTPlayerApp.stop_playback`: stops the engine and resets the
displayed progress and labels. -/
def stop_playback (s : Session) : Session × List Effect :=
  ({ s with nowPlayingLabel := "Stopped", stateLabel := "Stopped" },
   [Effect.engineStop])

/-! ## Search -/

/-- A raw yt-dlp flat-extraction entry; `none` stands for a missing
(or `None`-valued) key. -/
structure RawEntry where
  title : Option String
  uploader : Option String
  id : Option String
deriving DecidableEq, Repr

/-- How `perform_search` turns one raw entry into a list item:
`title`/`uploader` default to `"Unknown"`, and the thumbnail URL is
always rebuilt from the id via the fixed `i.ytimg.com` template. -/
def mkSearchResultItem (e : RawEntry) : ResultItem :=
  { title_text := e.title.getD "Unknown"
    uploader := e.uploader.getD "Unknown"
    video_id := pyStr e.id
    thumb_url := "https://i.ytimg.com/vi/" ++ pyStr e.id ++ "/hqdefault.jpg" }

/-- The app fields touched by the search path: the `_search_busy` flag,
the results list view and the status line. -/
structure SearchState where
  searchBusy : Bool
  results : List ResultItem
  statusLine : String
deriving DecidableEq, Repr

/-- `YTPlayerApp.on_input_submitted`: an empty query returns at once;
a submit while `_search_busy` is rejected with a warning notice and
changes nothing; otherwise the flag is set, the list cleared, the
status line updated and the `perform_search` worker spawned. -/
def on_input_submitted (st : SearchState) (query : String) :
    SearchState × List Effect :=
  if query = "" then (st, [])
  else if st.searchBusy then
    (st, [Effect.notify "Search already in progress." "warning"])
  else
    ({ searchBusy := true, results := [],
       statusLine := "Searching for \u0027" ++ query ++ "\u0027..." },
     [Effect.runSearchWorker query])

/-- Completion of the `YTPlayerApp.perform_search` worker: `outcome` is
the yt-dlp search result (the entry list, with a missing `entries` key
read as `[]`) or the raised exception's message.  The `finally` block
clears `_search_busy` on every path. -/
def perform_search (st : SearchState) (outcome : Except String (List RawEntry)) :
    SearchState × List Effect :=
  let step :=
    match outcome with
    | Except.ok entries =>
        if entries.isEmpty then
          ({ st with statusLine := "No results found." },
           [Effect.notify "No results found." "warning"])
        else
          ({ st with results := st.results ++ entries.map mkSearchResultItem,
                     statusLine := "" },
           [Effect.notify "Search completed." "information"])
    | Except.error e =>
        ({ st with statusLine := "Search failed: " ++ e },
         [Effect.notify ("Search failed: " ++ e) "error"])
  ({ step.1 with searchBusy := false }, step.2)

/-- Abstraction of the busy flag together with the number of running
search workers, for the single-flight invariant. -/
structure FlightState where
  busy : Bool
  inFlight : Nat
deriving DecidableEq, Repr

/-- Events seen by the search path: a user submit, or a running
`perform_search` worker reaching its `finally` block. -/
inductive FlightEvent where
  | submit (query : String)
  | finish
deriving DecidableEq, Repr

/-- One step of the search path at the busy-flag/worker level: `submit`
spawns a worker only when the query is non-empty and the flag is clear
(and then sets the flag); `finish` can only happen while a worker runs,
and clears the flag as it ends. -/
def flightStep (m : FlightState) (e : FlightEvent) : FlightState :=
  match e with
  | FlightEvent.submit q =>
      if q = "" then m
      else if m.busy then m
      else { busy := true, inFlight := m.inFlight + 1 }
  | FlightEvent.finish =>
      if m.inFlight = 0 then m
      else { busy := false, inFlight := m.inFlight - 1 }

/-- The search path at app start: flag clear, no worker running. -/
def flightInit : FlightState := { busy := false, inFlight := 0 }

/-! ## Thumbnail cache -/

/-- The `thumb_cache` dict, keyed by video id; bytes are embedded as
lists of naturals.  A fresh insertion shadows any older binding. -/
abbrev ThumbCache := List (String × List Nat)

/-- `dict.get`. -/
def cacheGet (c : ThumbCache) (k : String) : Option (List Nat) :=
  match c with
  | [] => none
  | (k2, v) :: rest => if k2 = k then some v else cacheGet rest k

/-- `dict[k] = v`. -/
def cacheSet (c : ThumbCache) (k : String) (v : List Nat) : ThumbCache :=
  (k, v) :: c

/-- Outcome of the `requests.get(thumb_url)` call: an HTTP response, or
a raised transport error. -/
inductive HttpOutcome where
  | response (status : Nat) (content : List Nat)
  | netError (msg : String)
deriving DecidableEq, Repr

/-- Observable result of one `_download_thumb` run. -/
structure ThumbResult where
  cache : ThumbCache
  networkCalled : Bool
  shownImage : Option (List Nat)
  thumbLabel : String

/-- `SearchResultItem._download_thumb`: an empty URL shows `"No thumb"`
without touching cache or network; a cache hit is used without a
network call; a miss fetches, caches the body only on HTTP 200, and a
transport error or non-200 status caches nothing (the whole body is
wrapped in `try ... except`, which only updates the label). -/
def download_thumb (cache : ThumbCache) (video_id thumb_url : String)
    (net : HttpOutcome) : ThumbResult :=
  if thumb_url = "" then
    { cache := cache, networkCalled := false, shownImage := none,
      thumbLabel := "No thumb" }
  else
    match cacheGet cache video_id with
    | some content =>
        if content.isEmpty then
          { cache := cache, networkCalled := false, shownImage := none,
            thumbLabel := "No thumb" }
        else
          { cache := cache, networkCalled := false, shownImage := some content,
            thumbLabel := "" }
    | none =>
        match net with
        | HttpOutcome.response status body =>
            if status = 200 then
              if body.isEmpty then
                { cache := cacheSet cache video_id body, networkCalled := true,
                  shownImage := none, thumbLabel := "No thumb" }
              else
                { cache := cacheSet cache video_id body, networkCalled := true,
                  shownImage := some body, thumbLabel := "" }
            else
              { cache := cache, networkCalled := true, shownImage := none,
                thumbLabel := "No thumb" }
        | HttpOutcome.netError _ =>
            { cache := cache, networkCalled := true, shownImage := none,
              thumbLabel := "No thumb" }

/-- The failure modes of one thumbnail fetch attempt named by the spec:
empty URL, transport error, or a non-200 status. -/
def fetchFails (thumb_url : String) (net : HttpOutcome) : Bool :=
  (thumb_url == "") ||
    (match net with
     | HttpOutcome.response status _ => status != 200
     | HttpOutcome.netError _ => true)

/-! ## Playlist cursor -/

/-- `YTPlayerApp.shift_selection`: with a non-empty list, reads the
cursor (`index or 0`), clamps `index + delta` into `[0, len-1]`, moves
the cursor there and fires `action_select_cursor`; with `autoplay` it
additionally plays the item now under the cursor.  Returns the new
cursor and the emitted selection/playback effects. -/
def shift_selection (children : List ResultItem) (index : Option Nat)
    (delta : Int) (autoplay : Bool) : Option Nat × List Effect :=
  if children.isEmpty then (index, [])
  else
    let idx : Nat := match index with | none => 0 | some i => i
    let newIdx : Nat := (max 0 (min ((children.length : Int) - 1) ((idx : Int) + delta))).toNat
    (some newIdx,
     Effect.selectCursor newIdx ::
       (if autoplay then
          match children.get? newIdx with
          | some item => [Effect.playItem item.video_id]
          | none => []
        else []))

/-! ## Helper lemmas -/

lemma pyOr_some_zero (v : ℚ) : pyOr (some v) 0 = v := by
  simp only [pyOr]
  split_ifs with h
  · exact h.symm
  · rfl

lemma get_time_pos_some (p : ℚ) : get_time_pos (some p) = p := pyOr_some_zero p

lemma get_duration_some_ne (d : ℚ) (h : d ≠ 0) : get_duration (some d) = d := by
  simp [get_duration, pyOr, h]

lemma cacheGet_cacheSet_self (c : ThumbCache) (k : String) (v : List Nat) :
    cacheGet (cacheSet c k v) k = some v := by
  simp [cacheGet, cacheSet]

/-- The single-flight invariant: the number of running search workers
is `1` exactly while the busy flag is set, `0` otherwise. -/
def flightInv (m : FlightState) : Prop :=
  m.inFlight = if m.busy then 1 else 0

lemma flightStep_inv (m : FlightState) (e : FlightEvent) (h : flightInv m) :
    flightInv (flightStep m e) := by
  cases e with
  | submit q =>
      by_cases hq : q = ""
      · simpa [flightStep, hq] using h
      · by_cases hb : m.busy
        · simpa [flightStep, hq, hb] using h
        · simp only [flightInv, hb, if_false] at h
          simp [flightStep, hq, hb, flightInv, h]
  | finish =>
      by_cases h0 : m.inFlight = 0
      · simpa [flightStep, h0] using h
      · simp only [flightInv] at h
        simp only [flightStep, h0, if_neg, flightInv]
        by_cases hb : m.busy
        · simp [hb] at h
          simp [h, if_neg h0]
        · simp [hb] at h
          exact absurd h h0

lemma flightRun_inv (evs : List FlightEvent) (m : FlightState) (h : flightInv m) :
    flightInv (evs.foldl flightStep m) := by
  induction evs generalizing m with
  | nil => exact h
  | cons e rest ih => exact ih _ (flightStep_inv m e h)

lemma shift_selection_clamps (children : List ResultItem) (index : Option Nat)
    (delta : Int) (autoplay : Bool) (h : children ≠ []) :
    ∃ n, (shift_selection children index delta autoplay).1 = some n ∧
      n < children.length := by
  have hne : children.isEmpty = false := by
    cases children with
    | nil => exact absurd rfl h
    | cons x xs => rfl
  unfold shift_selection
  rw [hne]
  simp only [Bool.false_eq_true, if_false]
  refine ⟨_, rfl, ?_⟩
  have hlen : 0 < children.length := List.length_pos.mpr h
  have h0 : (0:Int) ≤ max 0 (min ((children.length:Int) - 1)
      (((match index with | none => 0 | some i => i) : Nat) + delta)) := le_max_left _ _
  have h2 : max 0 (min ((children.length:Int) - 1)
      (((match index with | none => 0 | some i => i) : Nat) + delta)) ≤
      (children.length:Int) - 1 :=
    max_le (by omega) (min_le_left _ _)
  omega

lemma shift_fold_clamps (children : List ResultItem) (h : children ≠ []) :
    ∀ (ds : List Int) (index : Option Nat), ds ≠ [] →
      ∃ n, (ds.foldl (fun i d => (shift_selection children i d true).1) index) = some n ∧
        n < children.length := by
  intro ds
  induction ds with
  | nil => intro index hds; exact absurd rfl hds
  | cons d rest ih =>
      intro index hds
      by_cases hr : rest = []
      · subst hr
        simpa using shift_selection_clamps children index d true h
      · simpa using ih _ hr

lemma shift_boundary (children : List ResultItem) (i : Nat) (delta : Int)
    (h : children ≠ [])
    (hclamp : (max 0 (min ((children.length:Int) - 1) ((i:Int) + delta))).toNat = i) :
    (shift_selection children (some i) delta true).1 = some i ∧
    ∃ item, children.get? i = some item ∧
      (shift_selection children (some i) delta true).2 =
        [Effect.selectCursor i, Effect.playItem item.video_id] := by
  have hne : children.isEmpty = false := by
    cases children with
    | nil => exact absurd rfl h
    | cons x xs => rfl
  have hlen : 0 < children.length := List.length_pos.mpr h
  have hilt : i < children.length := by
    have h0 : (0:Int) ≤ max 0 (min ((children.length:Int) - 1) ((i:Int) + delta)) :=
      le_max_left _ _
    have h2 : max 0 (min ((children.length:Int) - 1) ((i:Int) + delta)) ≤
        (children.length:Int) - 1 :=
      max_le (by omega) (min_le_left _ _)
    omega
  obtain ⟨item, hitem⟩ : ∃ item, children.get? i = some item := by
    rw [List.get?_eq_get hilt]
    exact ⟨_, rfl⟩
  unfold shift_selection
  rw [hne]
  simp only [Bool.false_eq_true, if_false, hclamp, hitem, if_pos rfl]
  exact ⟨trivial, item, rfl, rfl⟩

/-! ## Claims -/

/-- Claim C1 (refuted by the code, claim kept as the spec's intent):
select `itemA`, then select `itemB` while A's stream resolution is
still pending, and let A's resolution complete afterwards.  The session
currently shows B, yet `fetch_and_play`'s completion invokes
`engine.play` with A's resolved URL and moves the state label to
`"Playing"` — the late result is applied, not discarded, because the
completion never compares its originating item against
`current_video_id`. -/
theorem C1_stale_resolution_overwrites :
    (play_video (play_video session0 itemA).1 itemB).1.current_video_id = "vidB" ∧
    (fetch_and_play (play_video (play_video session0 itemA).1 itemB).1 "vidA"
        (Except.ok "https://stream.example/audioA")).2
      = [Effect.enginePlay "https://stream.example/audioA"] ∧
    (fetch_and_play (play_video (play_video session0 itemA).1 itemB).1 "vidA"
        (Except.ok "https://stream.example/audioA")).1.stateLabel = "Playing" :=
  ⟨rfl, rfl, rfl⟩

/-- Claim C2, counterexample to the claim as stated: at a tick with
`position = 5` and a reported `duration = 0`, the code computes percent
`500`, not the claimed `100` — `AudioPlayer.get_duration` has already
turned the falsy duration `0` into `1` (`duration or 1`), so
`update_progress`'s `max(position, 1)` substitution never fires for a
missing or zero duration. -/
theorem C2_percent_at_zero_duration :
    (update_progress (readsAt (some 5) (some 0))).map Display.percent = some 500 ∧
    (500 : Int) ≠ 100 := by
  constructor
  · simp [update_progress, readsAt, get_time_pos, get_duration, pyOr]
    norm_num [pyInt, ratFloor]
  · decide

/-- Claim C2 (amended): when the engine reports the duration missing or
`0`, the tick uses duration `1` (the `or 1` default in `get_duration`),
so percent is `int(position * 100)`; only a strictly negative reported
duration triggers the `max(position, 1)` substitution, and then percent
is `int(position / max(position, 1) * 100)`.  (`position = 0,
duration = 0 → percent 0` still holds; `position = 5, duration = 0`
gives `500`, not `100`.) -/
theorem C2_degenerate_duration_amended (p : ℚ) (d : ℚ) (hd : d < 0) :
    (update_progress (readsAt (some p) none)).map Display.percent
      = some (pyInt (p * 100)) ∧
    (update_progress (readsAt (some p) (some 0))).map Display.percent
      = some (pyInt (p * 100)) ∧
    (update_progress (readsAt (some p) (some d))).map Display.percent
      = some (pyInt (p / max p 1 * 100)) := by
  have hd0 : d ≠ 0 := ne_of_lt hd
  have hmax : (0:ℚ) < max p 1 := lt_max_iff.mpr (Or.inr zero_lt_one)
  refine ⟨?_, ?_, ?_⟩
  · simp only [update_progress, readsAt, get_time_pos_some]
    norm_num [get_duration, pyOr, div_one]
  · simp only [update_progress, readsAt, get_time_pos_some]
    norm_num [get_duration, pyOr, div_one]
  · simp only [update_progress, readsAt, get_time_pos_some, get_duration_some_ne d hd0]
    rw [if_pos (Or.inr (le_of_lt hd)), if_pos hmax]
    simp

/-- Witness for the amended C2 at `position = 5` with duration missing,
`0`, and `-1`. -/
theorem C2_degenerate_duration_witness :
    ((-1 : ℚ) < 0) ∧
    ((update_progress (readsAt (some 5) none)).map Display.percent
       = some (pyInt (5 * 100)) ∧
     (update_progress (readsAt (some 5) (some 0))).map Display.percent
       = some (pyInt (5 * 100)) ∧
     (update_progress (readsAt (some 5) (some (-1)))).map Display.percent
       = some (pyInt (5 / max (5:ℚ) 1 * 100))) :=
  ⟨by norm_num, C2_degenerate_duration_amended 5 (-1) (by norm_num)⟩

/-- Claim C3: a submit of a non-empty query while `_search_busy` is set
is rejected with the busy notice and leaves the whole search state (the
results list and the flag) unchanged; and along any event sequence of
submits and worker completions, at most one search worker is ever in
flight. -/
theorem C3_single_flight :
    (∀ (st : SearchState) (q : String), q ≠ "" → st.searchBusy = true →
       on_input_submitted st q =
         (st, [Effect.notify "Search already in progress." "warning"])) ∧
    (∀ evs : List FlightEvent, (evs.foldl flightStep flightInit).inFlight ≤ 1) := by
  constructor
  · intro st q hq hb
    unfold on_input_submitted
    rw [if_neg hq, hb]
    simp
  · intro evs
    have h := flightRun_inv evs flightInit (by simp [flightInv, flightInit])
    unfold flightInv at h
    rw [h]
    split <;> simp

/-- Witness for C3: a busy submit of `"lofi"` is rejected unchanged,
and a concrete submit/finish trace keeps at most one worker in
flight. -/
theorem C3_single_flight_witness :
    ("lofi" ≠ "") ∧
    on_input_submitted { searchBusy := true, results := [], statusLine := "" } "lofi"
      = ({ searchBusy := true, results := [], statusLine := "" },
         [Effect.notify "Search already in progress." "warning"]) ∧
    (([FlightEvent.submit "lofi", FlightEvent.finish].foldl flightStep
        flightInit).inFlight ≤ 1) :=
  ⟨by decide,
   C3_single_flight.1 { searchBusy := true, results := [], statusLine := "" } "lofi"
     (by decide) rfl,
   C3_single_flight.2 [FlightEvent.submit "lofi", FlightEvent.finish]⟩

/-- Claim C4: `perform_search` clears `_search_busy` in its `finally`
block on every outcome (non-empty results, zero results, failure), so a
later non-empty submit is accepted and spawns a new search worker
rather than being rejected as busy. -/
theorem C4_busy_cleared (st : SearchState) (outcome : Except String (List RawEntry))
    (q : String) (hq : q ≠ "") :
    (perform_search st outcome).1.searchBusy = false ∧
    (on_input_submitted (perform_search st outcome).1 q).2
      = [Effect.runSearchWorker q] := by
  have hb : (perform_search st outcome).1.searchBusy = false := by
    unfold perform_search
    cases outcome with
    | ok entries => by_cases he : entries.isEmpty <;> simp [he]
    | error e => rfl
  refine ⟨hb, ?_⟩
  unfold on_input_submitted
  rw [if_neg hq, hb]
  simp

/-- Witness for C4: after a failed search, the flag is clear and a
submit of `"beatles"` starts a new search worker. -/
theorem C4_busy_cleared_witness :
    ("beatles" ≠ "") ∧
    ((perform_search { searchBusy := true, results := [], statusLine := "" }
        (Except.error "network down")).1.searchBusy = false ∧
     (on_input_submitted
        (perform_search { searchBusy := true, results := [], statusLine := "" }
          (Except.error "network down")).1 "beatles").2
       = [Effect.runSearchWorker "beatles"]) :=
  ⟨by decide,
   C4_busy_cleared { searchBusy := true, results := [], statusLine := "" }
     (Except.error "network down") "beatles" (by decide)⟩

/-- Claim C5: a thumbnail request for an id that was fetched
successfully before is served from `thumb_cache` with no second network
call and shows the cached bytes; a failed fetch (empty URL, transport
error, non-200 status) caches nothing for the id, so a later request
for the same id issues the network call again. -/
theorem C5_thumb_cache_policy :
    (∀ (c : ThumbCache) (id url url2 : String) (net2 : HttpOutcome) (body : List Nat),
       url ≠ "" → url2 ≠ "" → cacheGet c id = none → body ≠ [] →
       (download_thumb c id url (HttpOutcome.response 200 body)).networkCalled = true ∧
       cacheGet (download_thumb c id url (HttpOutcome.response 200 body)).cache id
         = some body ∧
       (download_thumb (download_thumb c id url (HttpOutcome.response 200 body)).cache
          id url2 net2).networkCalled = false ∧
       (download_thumb (download_thumb c id url (HttpOutcome.response 200 body)).cache
          id url2 net2).shownImage = some body) ∧
    (∀ (c : ThumbCache) (id url : String) (net : HttpOutcome),
       fetchFails url net = true →
       cacheGet (download_thumb c id url net).cache id = cacheGet c id) ∧
    (∀ (c : ThumbCache) (id url url2 : String) (net net2 : HttpOutcome),
       cacheGet c id = none → fetchFails url net = true → url2 ≠ "" →
       (download_thumb (download_thumb c id url net).cache id url2 net2).networkCalled
         = true) := by
  have key : ∀ (c : ThumbCache) (id url : String) (net : HttpOutcome),
      fetchFails url net = true → (download_thumb c id url net).cache = c := by
    intro c id url net hf
    simp only [fetchFails, Bool.or_eq_true, beq_iff_eq] at hf
    unfold download_thumb
    by_cases hu : url = ""
    · simp [hu]
    · rw [if_neg hu]
      cases hcg : cacheGet c id with
      | some content => by_cases hc : content.isEmpty <;> simp [hc]
      | none =>
        cases net with
        | response status body =>
            rcases hf with hf | hf
            · exact absurd hf hu
            · simp only [bne_iff_ne, ne_eq] at hf
              simp [hf]
        | netError m => simp
  have hit : ∀ (c : ThumbCache) (id url : String) (net : HttpOutcome) (b : List Nat),
      cacheGet c id = some b → b ≠ [] → url ≠ "" →
      (download_thumb c id url net).networkCalled = false ∧
      (download_thumb c id url net).shownImage = some b := by
    intro c id url net b hc hb hu
    have hbe : b.isEmpty = false := by
      cases b with
      | nil => exact absurd rfl hb
      | cons x xs => rfl
    unfold download_thumb
    rw [if_neg hu, hc]
    simp [hbe]
  refine ⟨?_, ?_, ?_⟩
  · intro c id url url2 net2 body hu hu2 hcg hb
    have hbe : body.isEmpty = false := by
      cases body with
      | nil => exact absurd rfl hb
      | cons x xs => rfl
    have h1 : download_thumb c id url (HttpOutcome.response 200 body) =
        { cache := cacheSet c id body, networkCalled := true,
          shownImage := some body, thumbLabel := "" } := by
      unfold download_thumb
      rw [if_neg hu, hcg]
      simp [hbe]
    rw [h1]
    have h2 := cacheGet_cacheSet_self c id body
    exact ⟨rfl, h2, (hit _ id url2 net2 body h2 hb hu2).1,
           (hit _ id url2 net2 body h2 hb hu2).2⟩
  · intro c id url net hf
    rw [key c id url net hf]
  · intro c id url url2 net net2 hcg hf hu2
    rw [key c id url net hf]
    unfold download_thumb
    rw [if_neg hu2, hcg]
    cases net2 with
    | response s b =>
        by_cases hs : s = 200
        · by_cases hbe : b.isEmpty <;> simp [hs, hbe]
        · simp [hs]
    | netError m => simp

/-- Witness for C5: a 200 fetch of `[7]` for `"vid"` is cached and the
second request is served without network; an empty-URL attempt caches
nothing; after a 404, the retry for the same id calls the network. -/
theorem C5_thumb_cache_policy_witness :
    ("https://i.ytimg.com/vi/vid/hqdefault.jpg" ≠ "") ∧
    cacheGet [] "vid" = none ∧ ([7] : List Nat) ≠ [] ∧
    ((download_thumb [] "vid" "https://i.ytimg.com/vi/vid/hqdefault.jpg"
        (HttpOutcome.response 200 [7])).networkCalled = true ∧
     cacheGet (download_thumb [] "vid" "https://i.ytimg.com/vi/vid/hqdefault.jpg"
        (HttpOutcome.response 200 [7])).cache "vid" = some [7] ∧
     (download_thumb (download_thumb [] "vid"
          "https://i.ytimg.com/vi/vid/hqdefault.jpg"
          (HttpOutcome.response 200 [7])).cache "vid"
        "https://i.ytimg.com/vi/vid/hqdefault.jpg"
        (HttpOutcome.netError "down")).networkCalled = false ∧
     (download_thumb (download_thumb [] "vid"
          "https://i.ytimg.com/vi/vid/hqdefault.jpg"
          (HttpOutcome.response 200 [7])).cache "vid"
        "https://i.ytimg.com/vi/vid/hqdefault.jpg"
        (HttpOutcome.netError "down")).shownImage = some [7]) ∧
    (fetchFails "https://i.ytimg.com/vi/vid/hqdefault.jpg"
        (HttpOutcome.response 404 []) = true ∧
     (download_thumb (download_thumb [] "vid"
          "https://i.ytimg.com/vi/vid/hqdefault.jpg"
          (HttpOutcome.response 404 [])).cache "vid"
        "https://i.ytimg.com/vi/vid/hqdefault.jpg"
        (HttpOutcome.response 200 [7])).networkCalled = true) :=
  ⟨by decide, rfl, by decide,
   C5_thumb_cache_policy.1 [] "vid" "https://i.ytimg.com/vi/vid/hqdefault.jpg"
     "https://i.ytimg.com/vi/vid/hqdefault.jpg" (HttpOutcome.netError "down") [7]
     (by decide) (by decide) rfl (by decide),
   by decide,
   C5_thumb_cache_policy.2.2 [] "vid" "https://i.ytimg.com/vi/vid/hqdefault.jpg"
     "https://i.ytimg.com/vi/vid/hqdefault.jpg" (HttpOutcome.response 404 [])
     (HttpOutcome.response 200 [7]) rfl (by decide) (by decide)⟩

/-- Claim C6: with a non-empty results list, `shift_selection` always
leaves the cursor clamped inside `[0, len-1]` (also along any non-empty
sequence of `next`/`prev` calls, with no wraparound), and at either
boundary the index is unchanged while the call still re-selects and
replays the item at that boundary index. -/
theorem C6_cursor_clamped :
    (∀ (children : List ResultItem) (index : Option Nat) (delta : Int) (autoplay : Bool),
       children ≠ [] →
       ∃ n, (shift_selection children index delta autoplay).1 = some n ∧
         n < children.length) ∧
    (∀ (children : List ResultItem) (ds : List Int) (index : Option Nat),
       children ≠ [] → ds ≠ [] →
       ∃ n, (ds.foldl (fun i d => (shift_selection children i d true).1) index)
           = some n ∧ n < children.length) ∧
    (∀ (children : List ResultItem) (i : Nat),
       children ≠ [] → i = children.length - 1 →
       (shift_selection children (some i) 1 true).1 = some i ∧
       ∃ item, children.get? i = some item ∧
         (shift_selection children (some i) 1 true).2 =
           [Effect.selectCursor i, Effect.playItem item.video_id]) ∧
    (∀ (children : List ResultItem), children ≠ [] →
       (shift_selection children (some 0) (-1) true).1 = some 0 ∧
       ∃ item, children.get? 0 = some item ∧
         (shift_selection children (some 0) (-1) true).2 =
           [Effect.selectCursor 0, Effect.playItem item.video_id]) := by
  refine ⟨shift_selection_clamps, ?_, ?_, ?_⟩
  · intro children ds index h hds
    exact shift_fold_clamps children h ds index hds
  · intro children i h hi
    have hlen : 0 < children.length := List.length_pos.mpr h
    refine shift_boundary children i 1 h ?_
    omega
  · intro children h
    have hlen : 0 < children.length := List.length_pos.mpr h
    refine shift_boundary children 0 (-1) h ?_
    omega

/-- Witness for C6 on a concrete two-item list: a next/next/next run
from the start ends clamped at index 1, and next at the last index (and
prev at index 0) keeps the index while re-selecting and replaying that
item. -/
theorem C6_cursor_clamped_witness :
    ([itemA, itemB] ≠ ([] : List ResultItem)) ∧
    (∃ n, ([1, 1, 1].foldl (fun i d => (shift_selection [itemA, itemB] i d true).1)
        (some 0)) = some n ∧ n < 2) ∧
    ((shift_selection [itemA, itemB] (some 1) 1 true).1 = some 1 ∧
     ∃ item, [itemA, itemB].get? 1 = some item ∧
       (shift_selection [itemA, itemB] (some 1) 1 true).2 =
         [Effect.selectCursor 1, Effect.playItem item.video_id]) ∧
    ((shift_selection [itemA, itemB] (some 0) (-1) true).1 = some 0 ∧
     ∃ item, [itemA, itemB].get? 0 = some item ∧
       (shift_selection [itemA, itemB] (some 0) (-1) true).2 =
         [Effect.selectCursor 0, Effect.playItem item.video_id]) :=
  ⟨by decide,
   C6_cursor_clamped.2.1 [itemA, itemB] [1, 1, 1] (some 0) (by decide) (by decide),
   C6_cursor_clamped.2.2.1 [itemA, itemB] 1 (by decide) rfl,
   C6_cursor_clamped.2.2.2 [itemA, itemB] (by decide)⟩

/-- Claim C7, counterexample to the claim as stated: in the freshly
composed session (state label `"Stopped"`, nothing loaded),
`toggle_play_pause` still emits the engine pause call and flips the
engine's paused flag — the claimed Idle/Loading guard does not exist in
the code. -/
theorem C7_engine_called_while_idle :
    session0.stateLabel = "Stopped" ∧
    (toggle_play_pause false session0).2.2 = [Effect.enginePauseToggle] ∧
    (toggle_play_pause false session0).1 = true :=
  ⟨rfl, rfl, rfl⟩

/-- Claim C7 (amended): `toggle_play_pause` invoked while the session
is Idle or Loading is not a no-op — it always makes exactly one engine
call, `pause()`, flipping the engine's paused flag, and sets the labels
from the flag the engine reports.  The call is tolerated safely (the
label update cannot fail the app), but it is unguarded. -/
theorem C7_toggle_forwards_to_engine (enginePaused : Bool) (ui : Session)
    (h : ui.stateLabel = "Stopped" ∨ ui.stateLabel = "Loading") :
    (toggle_play_pause enginePaused ui).2.2 = [Effect.enginePauseToggle] ∧
    (toggle_play_pause enginePaused ui).1 = !enginePaused :=
  ⟨rfl, rfl⟩

/-- Witness for the amended C7 at the freshly composed (idle) session. -/
theorem C7_toggle_witness :
    (session0.stateLabel = "Stopped" ∨ session0.stateLabel = "Loading") ∧
    ((toggle_play_pause false session0).2.2 = [Effect.enginePauseToggle] ∧
     (toggle_play_pause false session0).1 = !false) :=
  ⟨Or.inl rfl, C7_toggle_forwards_to_engine false session0 (Or.inl rfl)⟩

/-- Claim C8: for a current level `v ∈ [0, 150]` and any integer delta,
`change_volume` writes back and returns exactly `clamp(v + d, 0, 150)`;
an unknown engine volume is read as `0`.  The function takes no session
state at all, so it is independent of `SessionState` by construction. -/
theorem C8_volume_clamped (v : ℚ) (d : Int) (h0 : 0 ≤ v) (h1 : v ≤ 150) :
    change_volume (some v) d
      = (max 0 (min 150 (v + (d:ℚ))), max 0 (min 150 (v + (d:ℚ)))) ∧
    change_volume none d
      = (max 0 (min 150 ((0:ℚ) + (d:ℚ))), max 0 (min 150 ((0:ℚ) + (d:ℚ)))) := by
  constructor
  · unfold change_volume
    rw [pyOr_some_zero]
  · rfl

/-- Witness for C8 at `v = 80`, `d = 100` (clamps to 150) and the
unknown-volume read. -/
theorem C8_volume_clamped_witness :
    ((0:ℚ) ≤ 80 ∧ (80:ℚ) ≤ 150) ∧
    (change_volume (some 80) 100
       = (max 0 (min 150 ((80:ℚ) + ((100:Int):ℚ))),
          max 0 (min 150 ((80:ℚ) + ((100:Int):ℚ)))) ∧
     change_volume none 100
       = (max 0 (min 150 ((0:ℚ) + ((100:Int):ℚ))),
          max 0 (min 150 ((0:ℚ) + ((100:Int):ℚ))))) :=
  ⟨⟨by norm_num, by norm_num⟩, C8_volume_clamped 80 100 (by norm_num) (by norm_num)⟩

/-- Claim C9: if any of the engine reads of a progress tick fails
(raises), the whole tick is swallowed by the surrounding
`try/except: pass`: no display update happens and no error propagates
(`update_progress` is a total function into `Option Display`). -/
theorem C9_read_failure_swallowed (r : EngineReads)
    (h : r.coreIdle = Except.error () ∨ r.timePos = Except.error () ∨
         r.duration = Except.error ()) :
    update_progress r = none := by
  obtain ⟨ci, tp, du⟩ := r
  cases ci with
  | error e => rfl
  | ok b =>
    cases b with
    | true => rfl
    | false =>
      cases tp with
      | error e => rfl
      | ok v =>
        cases du with
        | error e => rfl
        | ok w =>
          exfalso
          rcases h with h | h | h <;> simp at h

/-- Witness for C9: a tick whose `time_pos` read raises updates
nothing. -/
theorem C9_read_failure_witness :
    (({ coreIdle := Except.ok false, timePos := Except.error (),
        duration := Except.ok (some 3) } : EngineReads).timePos = Except.error ()) ∧
    update_progress { coreIdle := Except.ok false, timePos := Except.error (),
                      duration := Except.ok (some 3) } = none :=
  ⟨rfl, C9_read_failure_swallowed _ (Or.inr (Or.inl rfl))⟩

/-- Claim C10: submitting an empty query returns before touching
anything: the state (busy flag, results, status line) is unchanged and
no effect — no worker, no notice, no status message — is produced. -/
theorem C10_empty_query_noop (st : SearchState) :
    on_input_submitted st "" = (st, []) := by
  unfold on_input_submitted
  simp

end YT
